import Mathlib

/-!
Shallow embedding of the `qa` testing library (src/qa.py) and verification
of the specification claims about it.

Modelling conventions:
* Python exceptions are the inductive `PyExc`; a Python computation that may
  raise is a value of type `Option PyExc` (the exception that escapes) or an
  explicit pair carrying the normal result.
* The tri-state value a plugin's `should_run_test_case` may return is `PyVal`
  (Python booleans, integers and strings, enough for the `== True` /
  `== False` comparisons the source performs).
* Side effects that the claims observe (fixture setup/teardown, plugin hooks,
  test-body invocation) are recorded in an explicit event trace (`Event`).
* A test body (`TestCase.callable`) is modelled by the exception it raises
  when invoked: `none` means it returns normally.
-/

/-- Python values that may flow out of a plugin skip predicate.  The source
compares them with `== True` and `== False`; in Python `1 == True` and
`0 == False`, which `pyEqTrue`/`pyEqFalse` reproduce. -/
inductive PyVal where
  | pybool (b : Bool)
  | pyint (n : Int)
  | pystr (s : String)
deriving DecidableEq, Repr

/-- Python `v == True`. -/
def pyEqTrue : PyVal → Bool
  | PyVal.pybool b => b
  | PyVal.pyint n => n == 1
  | PyVal.pystr _ => false

/-- Python `v == False`. -/
def pyEqFalse : PyVal → Bool
  | PyVal.pybool b => !b
  | PyVal.pyint n => n == 0
  | PyVal.pystr _ => false

/-- Python `unicode(v)`: the text form of the value. -/
def pyUnicode : PyVal → String
  | PyVal.pybool b => if b then "True" else "False"
  | PyVal.pyint n => toString n
  | PyVal.pystr s => s

/-- The exception kinds the embedded code can raise.  `failure` is the
library's own `Failure` class (src/qa.py line 169); the others are Python
builtins that appear in the source's behaviour. -/
inductive PyExc where
  | failure (msg : String)
  | keyError (msg : String)
  | valueError (msg : String)
  | nameError (msg : String)
  | typeError (msg : String)
  | attributeError (msg : String)
deriving DecidableEq, Repr

/-- Exception classes, used as the argument of `expect_raises` and by the
`except` clauses of the source. -/
inductive ExcType where
  | tFailure
  | tKeyError
  | tValueError
  | tNameError
  | tTypeError
  | tAttributeError
deriving DecidableEq, Repr

/-- Python `isinstance(e, t)` for the modelled exception classes (none of the
modelled classes is a subclass of another except that all derive from
`Exception`, which is handled separately by `PyExc` itself). -/
def PyExc.isInstance : PyExc → ExcType → Bool
  | PyExc.failure _, ExcType.tFailure => true
  | PyExc.keyError _, ExcType.tKeyError => true
  | PyExc.valueError _, ExcType.tValueError => true
  | PyExc.nameError _, ExcType.tNameError => true
  | PyExc.typeError _, ExcType.tTypeError => true
  | PyExc.attributeError _, ExcType.tAttributeError => true
  | _, _ => false

/-- Whether the exception is caught by the source's `except Failure` clause
(src/qa.py line 527). -/
def PyExc.isFailureKind : PyExc → Bool
  | PyExc.failure _ => true
  | _ => false

/-- The Python class name of the exception, as it appears in a formatted
traceback. -/
def PyExc.typeName : PyExc → String
  | PyExc.failure _ => "Failure"
  | PyExc.keyError _ => "KeyError"
  | PyExc.valueError _ => "ValueError"
  | PyExc.nameError _ => "NameError"
  | PyExc.typeError _ => "TypeError"
  | PyExc.attributeError _ => "AttributeError"

/-- The message carried by the exception. -/
def PyExc.message : PyExc → String
  | PyExc.failure m => m
  | PyExc.keyError m => m
  | PyExc.valueError m => m
  | PyExc.nameError m => m
  | PyExc.typeError m => m
  | PyExc.attributeError m => m

/-- TestCase (src/qa.py lines 142-167).  `requires` is the ordered sequence
of requirement (fixture) factories, identified here by numeric ids;
`callable` is the test body, modelled by the exception invoking it raises
(`none` = normal return). -/
structure TestCase where
  callable : Option PyExc := none
  group : String := ""
  name : String := ""
  requires : List Nat := []
  description : String := ""
  skip : Bool := false
  skip_reason : String := ""
deriving DecidableEq, Repr

/-- TestResult (src/qa.py lines 196-306).  `error` and `failure` model the
`exc_info` payloads; timestamps are abstract clock ticks. -/
structure TestResult where
  group : String := ""
  name : String := ""
  description : String := ""
  skipped : Bool := false
  skipped_reason : String := ""
  error : Option PyExc := none
  error_msg : String := ""
  failure : Option PyExc := none
  failure_msg : String := ""
  started_at : Option Nat := none
  ended_at : Option Nat := none
deriving DecidableEq, Repr

/-- `TestResult.is_error` (src/qa.py lines 279-281): `bool(error or error_msg)`. -/
def TestResult.is_error (r : TestResult) : Bool :=
  r.error.isSome || decide (r.error_msg ≠ "")

/-- `TestResult.is_failure` (src/qa.py lines 283-285): `bool(failure or failure_msg)`. -/
def TestResult.is_failure (r : TestResult) : Bool :=
  r.failure.isSome || decide (r.failure_msg ≠ "")

/-- `TestResult.is_success` (src/qa.py lines 271-277). -/
def TestResult.is_success (r : TestResult) : Bool :=
  !r.skipped && !r.error.isSome && decide (r.error_msg = "")
    && !r.failure.isSome && decide (r.failure_msg = "")

/-- `TestResult.status` (src/qa.py lines 293-302). -/
def TestResult.status (r : TestResult) : String :=
  if r.is_error then "crashed"
  else if r.is_failure then "failed"
  else if r.skipped then "skipped"
  else "ok"

/-- `traceback.format_exception(*exc_info, limit=30)` joined to one string
(src/qa.py lines 231, 239): the header line, then the exception line. Frame
lines are elided; the output always begins with the literal header. -/
def format_exception (e : PyExc) : String :=
  "Traceback (most recent call last):\n" ++ e.typeName ++ ": " ++ e.message ++ "\n"

/-- `TestResult.__getstate__` (src/qa.py lines 227-255): the pickled state
keeps the same keys; `error`/`failure` are cleared and the text forms are
filled from the payloads when empty. -/
def TestResult.getstate (r : TestResult) : TestResult :=
  let error_msg :=
    if r.error_msg = "" then
      match r.error with
      | some e => format_exception e
      | none => ""
    else r.error_msg
  let failure_msg :=
    if r.failure_msg = "" then
      match r.failure with
      | some e => format_exception e
      | none => ""
    else r.failure_msg
  { group := r.group
    name := r.name
    description := r.description
    skipped := r.skipped
    skipped_reason := r.skipped_reason
    error := none
    error_msg := error_msg
    failure := none
    failure_msg := failure_msg
    started_at := r.started_at
    ended_at := r.ended_at }

/-- `TestResult.__setstate__` (src/qa.py lines 257-258): `self.__dict__.update(state)`
with a complete state dictionary replaces every field of the receiver. -/
def TestResult.setstate (_self : TestResult) (state : TestResult) : TestResult :=
  state

/-- The cross-process round trip: pickling calls `__getstate__`, unpickling
calls `__setstate__` on a fresh blank object with the recovered state. -/
def TestResult.pickle_roundtrip (r : TestResult) : TestResult :=
  TestResult.setstate {} r.getstate

/-- Plugin (src/qa.py lines 581-628).  `name` identifies the plugin object in
event traces; the observational hooks `will_run_test_case` and
`did_run_test_case` are pure no-ops in the abstract class and are modelled by
the events the engine records when calling them.  Field defaults mirror the
abstract class: `should_run_test_case` returns `True` and
`extra_test_case_requirements` returns `[]`. -/
structure Plugin where
  name : String := ""
  should_run_test_case : TestCase → PyVal := fun _ => PyVal.pybool true
  extra_test_case_requirements : TestCase → List Nat := fun _ => []

/-- Observable actions of one test execution, in the order they happen. -/
inductive Event where
  | setup (r : Nat)
  | willRun (p : String)
  | body (tc : String)
  | teardown (r : Nat)
  | didRun (p : String)
deriving DecidableEq, Repr

/-- The plugin-consultation loop of `_is_skip_test_case` (src/qa.py lines
415-425), threading the local `skip`/`skip_reason` state.  `== True`
continues unchanged; `== False` sets `skip = True` with empty reason and
keeps looping (there is no `break` on that branch); any other value sets the
reason to the text form and breaks.  The second component records which
plugins were consulted, in order. -/
def consultPlugins (tc : TestCase) : List Plugin → Bool × String → (Bool × String) × List String
  | [], st => (st, [])
  | p :: rest, st =>
    let v := p.should_run_test_case tc
    if pyEqTrue v then
      let r := consultPlugins tc rest st
      (r.1, p.name :: r.2)
    else if pyEqFalse v then
      let r := consultPlugins tc rest (true, "")
      (r.1, p.name :: r.2)
    else ((true, pyUnicode v), [p.name])

/-- The TestResult built at src/qa.py lines 427-432.  Note the source passes
`skipped_reason=test_case.skip_reason` (the descriptor's static field), not
the local `skip_reason` computed by the loop. -/
def skipResult (tc : TestCase) : TestResult :=
  { group := tc.group
    name := tc.name
    description := tc.description
    skipped := true
    skipped_reason := tc.skip_reason }

/-- `_is_skip_test_case` (src/qa.py lines 410-432): returns the skipped
TestResult when the test is to be skipped, `none` otherwise. -/
def _is_skip_test_case (tc : TestCase) (plugins : Option (List Plugin)) : Option TestResult :=
  let st : Bool × String :=
    if !tc.skip then
      match plugins with
      | some ps => (consultPlugins tc ps (tc.skip, tc.skip_reason)).1
      | none => (tc.skip, tc.skip_reason)
    else (tc.skip, tc.skip_reason)
  if st.1 then some (skipResult tc) else none

/-- `contextlib.nested(*requirements)` wrapping an inner computation: each
requirement is entered in list order (emitting its setup event) and exited in
reverse order (emitting its teardown event); an exception escaping the inner
computation propagates after the exits run.  Exits are the engine's
responsibility; per the fixture protocol each teardown runs there. -/
def withNested : List Nat → List Event × Option PyExc → List Event × Option PyExc
  | [], inner => inner
  | r :: rest, inner =>
    let res := withNested rest inner
    (Event.setup r :: res.1 ++ [Event.teardown r], res.2)

/-- The requirement list assembled at src/qa.py lines 517-521: each plugin's
extra requirements in plugin order, then the test case's own `requires` in
declaration order. -/
def combinedRequirements (tc : TestCase) (ps : List Plugin) : List Nat :=
  (ps.flatMap fun p => p.extra_test_case_requirements tc) ++ tc.requires

/-- `_run_test_case` (src/qa.py lines 505-538).  Returns the TestResult and
the event trace of the execution.  With `plugins = none` the statement
`for plugin in plugins` raises TypeError before any requirement or the body
runs; the `except Exception` clause records it as the error payload and the
trailing `did_run_test_case` loop is guarded by `plugins is not None`. -/
def _run_test_case (tc : TestCase) (plugins : Option (List Plugin)) : TestResult × List Event :=
  match plugins with
  | none =>
    ({ group := tc.group
       name := tc.name
       description := tc.description
       error := some (PyExc.typeError "NoneType object is not iterable")
       started_at := some 0
       ended_at := some 1 }, [])
  | some ps =>
    let reqs := combinedRequirements tc ps
    let inner : List Event × Option PyExc :=
      ((ps.map fun p => Event.willRun p.name) ++ [Event.body tc.name], tc.callable)
    let res := withNested reqs inner
    let base : TestResult :=
      { group := tc.group
        name := tc.name
        description := tc.description
        started_at := some 0
        ended_at := some 1 }
    let result :=
      match res.2 with
      | none => base
      | some (PyExc.failure m) => { base with failure := some (PyExc.failure m) }
      | some e => { base with error := some e }
    (result, res.1 ++ (ps.map fun p => Event.didRun p.name))

/-- One iteration of `_run_test_cases_singlethread` (src/qa.py lines
542-547): yield the skip result (no events) or run the test. -/
def runOneST (plugins : Option (List Plugin)) (tc : TestCase) : TestResult × List Event :=
  match _is_skip_test_case tc plugins with
  | some r => (r, [])
  | none => _run_test_case tc plugins

/-- `_run_test_cases_singlethread` (src/qa.py lines 540-547). -/
def _run_test_cases_singlethread (tcs : List TestCase) (plugins : Option (List Plugin)) :
    List (TestResult × List Event) :=
  tcs.map (runOneST plugins)

/-- `run_test_cases` (src/qa.py lines 383-394) at its default mode
`RUN_SINGLETHREAD`, which dispatches to `_run_test_cases_singlethread`;
`plugins` defaults to `None` exactly as in the source. -/
def run_test_cases (tcs : List TestCase) (plugins : Option (List Plugin) := none) :
    List (TestResult × List Event) :=
  _run_test_cases_singlethread tcs plugins

/-- `expect_raises` (src/qa.py lines 317-335) as a function of the exception
the guarded block raises (`none` = the block completes normally); the result
is the exception escaping the `with` statement.  A matching exception is
swallowed; a non-matching one propagates past the `except exc_type` clause;
when nothing was raised the `else` branch executes `raise qa.Failure(...)`,
and since the name `qa` is unbound inside the module this raises NameError. -/
def expect_raises (exc_type : ExcType) (block : Option PyExc) : Option PyExc :=
  match block with
  | some e => if e.isInstance exc_type then none else some e
  | none => some (PyExc.nameError "global name qa is not defined")

/-- Observable scheduling actions of the multithread driver. -/
inductive SchedEvent where
  | yieldSkip (tag : Nat)
  | start (tag : Nat)
  | complete
  | yieldResult
deriving DecidableEq, Repr

/-- The inner `while running > 0` loop of `_run_test_cases_multithread`
(src/qa.py lines 452-455): each iteration blocks on `queue.get()` (a
completion) and yields the received result. -/
def drainLoop : Nat → List SchedEvent
  | 0 => []
  | n + 1 => SchedEvent.complete :: SchedEvent.yieldResult :: drainLoop n

/-- Outcome of running the multithread driver generator to exhaustion:
it finishes yielding the recorded events, raises an exception after them, or
blocks forever on `queue.get()` with nothing in flight. -/
inductive MtOutcome where
  | done (events : List SchedEvent)
  | raised (events : List SchedEvent) (e : PyExc)
  | blocked (events : List SchedEvent)
deriving DecidableEq, Repr

/-- Prefix some already-yielded events onto an outcome. -/
def MtOutcome.prepend (pre : List SchedEvent) : MtOutcome → MtOutcome
  | MtOutcome.done evs => MtOutcome.done (pre ++ evs)
  | MtOutcome.raised evs e => MtOutcome.raised (pre ++ evs) e
  | MtOutcome.blocked evs => MtOutcome.blocked (pre ++ evs)

/-- The `for tag, test_case in enumerate(test_cases)` loop of
`_run_test_cases_multithread` (src/qa.py lines 440-455), with `running`
threaded through.  Skips are yielded synchronously.  Otherwise: if
`running >= num_workers` the driver performs `queue.get()` — blocking forever
when nothing is in flight — and then executes `yield test_result`, a NameError
since no such local exists (line 447).  Otherwise it starts the worker,
increments `running`, and immediately enters the `while running > 0` drain
loop (lines 452-455), which is nested inside the `for` body and so drains
every in-flight execution before the next test is admitted. -/
def mtLoop (plugins : Option (List Plugin)) (num_workers : Nat) :
    List (Nat × TestCase) → Nat → MtOutcome
  | [], _running => MtOutcome.done []
  | (tag, tc) :: rest, running =>
    match _is_skip_test_case tc plugins with
    | some _ =>
      MtOutcome.prepend [SchedEvent.yieldSkip tag] (mtLoop plugins num_workers rest running)
    | none =>
      if running ≥ num_workers then
        if running = 0 then MtOutcome.blocked []
        else MtOutcome.raised [SchedEvent.complete]
          (PyExc.nameError "global name test_result is not defined")
      else
        MtOutcome.prepend (SchedEvent.start tag :: drainLoop (running + 1))
          (mtLoop plugins num_workers rest 0)

/-- `_run_test_cases_multithread` (src/qa.py lines 434-455): enumerate the
test cases and run the loop with `running = 0`; `num_workers = None` falls
back to `DEFAULT_NUM_WORKERS = 10` (lines 436-437). -/
def _run_test_cases_multithread (tcs : List TestCase) (num_workers : Option Nat)
    (plugins : Option (List Plugin)) : MtOutcome :=
  mtLoop plugins (num_workers.getD 10) tcs.enum 0

/-- Track the in-flight execution count along a scheduling trace:
`start` increments, `complete` decrements; the second component is the
running maximum. -/
def stepInflight : Nat × Nat → SchedEvent → Nat × Nat
  | (cur, mx), SchedEvent.start _ => (cur + 1, max mx (cur + 1))
  | (cur, mx), SchedEvent.complete => (cur - 1, mx)
  | (cur, mx), _ => (cur, mx)

/-- The largest number of simultaneously in-flight executions along a trace. -/
def maxInflight (tr : List SchedEvent) : Nat :=
  (tr.foldl stepInflight (0, 0)).2

/-- The `_qa_globals` module state (src/qa.py lines 91-97): the registered
test cases and the registered plugin objects (identified by ids, compared by
the `in` operator). -/
structure QaGlobals where
  all_test_cases : List TestCase := []
  plugins : List Nat := []
deriving DecidableEq, Repr

/-- `register_plugin` (src/qa.py lines 396-401).  When the plugin is not yet
registered the source calls `_qa_globals.append(plugin)` — an attribute
lookup on the module object, which has no `append` — raising AttributeError;
when it is already registered it only logs.  The returned pair is the
resulting global state and the exception raised, if any; on neither path is
`_qa_globals.plugins` modified. -/
def register_plugin (plugin : Nat) (g : QaGlobals) : QaGlobals × Option PyExc :=
  if plugin ∉ g.plugins then
    (g, some (PyExc.attributeError "module object has no attribute append"))
  else
    (g, none)

/-- A descriptor with no static skip, used to exercise the plugin skip path. -/
def tcW1 : TestCase := { name := "t", group := "g" }

/-- A plugin whose skip predicate returns the string "maintenance window". -/
def pReason : Plugin :=
  { name := "preason", should_run_test_case := fun _ => PyVal.pystr "maintenance window" }

/-- A plugin whose skip predicate returns `False`. -/
def pFalsePlugin : Plugin :=
  { name := "pfalse", should_run_test_case := fun _ => PyVal.pybool false }

/-- A statically skipped descriptor. -/
def tcW5 : TestCase := { name := "sk", skip := true, skip_reason := "because" }

/-- A descriptor whose body raises `Failure`. -/
def tcW3 : TestCase := { name := "f", callable := some (PyExc.failure "boom") }

/-- A plain descriptor with a normally returning body. -/
def tcW9 : TestCase := { name := "w9" }

/-- Three plain non-skipped descriptors for the thread-pool driver. -/
def tcMt0 : TestCase := { name := "t0" }

/-- Second descriptor for the thread-pool driver. -/
def tcMt1 : TestCase := { name := "t1" }

/-- Third descriptor for the thread-pool driver. -/
def tcMt2 : TestCase := { name := "t2" }

/-- Unfolding of `contextlib.nested`: setups in list order, then the inner
trace, then teardowns in reverse order; the inner exception propagates. -/
theorem withNested_spec (reqs : List Nat) (inner : List Event × Option PyExc) :
    withNested reqs inner =
      (reqs.map Event.setup ++ inner.1 ++ (reqs.reverse.map Event.teardown), inner.2) := by
  induction reqs with
  | nil => simp [withNested]
  | cons r rest ih => simp [withNested, ih, List.append_assoc]

/-- A formatted traceback is never the empty string: it begins with the
literal header line. -/
theorem format_exception_ne_empty (e : PyExc) : format_exception e ≠ "" := by
  intro h
  have hlen := congrArg String.length h
  rw [format_exception] at hlen
  simp only [String.length_append] at hlen
  have hhdr : ("Traceback (most recent call last):\n" : String).length = 35 := rfl
  have hsep : (": " : String).length = 2 := rfl
  have hnl : ("\n" : String).length = 1 := rfl
  have hempty : ("" : String).length = 0 := rfl
  omega

/-- C6: the derived status of a TestResult is crashed if an error payload
(`error` or `error_msg`) is present; else failed if a failure payload is
present; else skipped if the skipped flag is set; else ok — and exactly one
of the four statuses holds: the four characterizations below are mutually
exclusive string equations and the final disjunct shows one always holds. -/
theorem C6_status_partition (r : TestResult) :
    (r.status = "crashed" ↔ r.is_error = true) ∧
    (r.status = "failed" ↔ (r.is_error = false ∧ r.is_failure = true)) ∧
    (r.status = "skipped" ↔ (r.is_error = false ∧ r.is_failure = false ∧ r.skipped = true)) ∧
    (r.status = "ok" ↔ r.is_success = true) ∧
    (r.status = "crashed" ∨ r.status = "failed" ∨ r.status = "skipped" ∨ r.status = "ok") := by
  obtain ⟨g, n, d, sk, sr, er, em, fa, fm, sa, ea⟩ := r
  cases er <;> cases fa <;> cases sk <;>
    by_cases hem : em = "" <;> by_cases hfm : fm = "" <;>
      simp_all [TestResult.status, TestResult.is_error, TestResult.is_failure,
        TestResult.is_success]

/-- C7: serializing a TestResult via `__getstate__` and restoring via
`__setstate__` yields a result whose `error` and `failure` fields are None,
whose `error_msg` (resp. `failure_msg`) is non-empty exactly when the
original carried the corresponding payload (pre-formatted traceback text),
and whose derived classification — `is_error`, `is_failure`, `skipped`,
`status` — equals the original's. -/
theorem C7_pickle_roundtrip (r : TestResult) :
    r.pickle_roundtrip.error = none ∧
    r.pickle_roundtrip.failure = none ∧
    r.pickle_roundtrip.is_error = r.is_error ∧
    r.pickle_roundtrip.is_failure = r.is_failure ∧
    r.pickle_roundtrip.skipped = r.skipped ∧
    r.pickle_roundtrip.status = r.status ∧
    ((r.pickle_roundtrip.error_msg ≠ "") ↔ r.is_error = true) ∧
    ((r.pickle_roundtrip.failure_msg ≠ "") ↔ r.is_failure = true) := by
  obtain ⟨g, n, d, sk, sr, er, em, fa, fm, sa, ea⟩ := r
  cases er <;> cases fa <;>
    by_cases hem : em = "" <;> by_cases hfm : fm = "" <;>
      simp_all [TestResult.pickle_roundtrip, TestResult.getstate, TestResult.setstate,
        TestResult.status, TestResult.is_error, TestResult.is_failure,
        format_exception_ne_empty]

/-- Once the consultation state has `skip = true`, it stays true to the end
of the loop whatever the remaining plugins return. -/
theorem consultPlugins_fst_true (tc : TestCase) (l : List Plugin) :
    ∀ r : String, ((consultPlugins tc l (true, r)).1).1 = true := by
  induction l with
  | nil => intro r; rfl
  | cons p rest ih =>
    intro r
    simp only [consultPlugins]
    split
    case isTrue => simpa using ih r
    case isFalse =>
      split
      case isTrue => simpa using ih ""
      case isFalse => rfl

/-- A prefix of plugins whose predicates all compare equal to `True` is
consulted and leaves the state unchanged; the loop then continues with the
rest of the list. -/
theorem consultPlugins_true_prefix (tc : TestCase) (ps1 : List Plugin)
    (h1 : ∀ q ∈ ps1, pyEqTrue (q.should_run_test_case tc) = true)
    (rest : List Plugin) (st : Bool × String) :
    consultPlugins tc (ps1 ++ rest) st =
      ((consultPlugins tc rest st).1, ps1.map Plugin.name ++ (consultPlugins tc rest st).2) := by
  induction ps1 with
  | nil => simp
  | cons q qs ih =>
    have hq : pyEqTrue (q.should_run_test_case tc) = true := h1 q (by simp)
    have ih' := ih (fun x hx => h1 x (by simp [hx]))
    simp [consultPlugins, hq, ih']

/-- C1 (counterexample): with a skip-free descriptor and one plugin whose
predicate returns the string "maintenance window", the skipped result's
`skipped_reason` is the empty string — the descriptor's static
`skip_reason` — not the returned value's string form, refuting the claim's
reason propagation; and after a plugin returns `False` the next plugin is
still consulted, refuting the claimed short-circuit on the first
"do not run" signal. -/
theorem C1_plugin_skip_counterexample :
    (_is_skip_test_case tcW1 (some [pReason])).map TestResult.skipped_reason = some "" ∧
    pyUnicode (pReason.should_run_test_case tcW1) = "maintenance window" ∧
    (consultPlugins tcW1 [pFalsePlugin, pReason] (false, "")).2 = ["pfalse", "preason"] :=
  ⟨rfl, rfl, rfl⟩

/-- C1 (amended): for a test case with static skip flag false, when a plugin
returns a non-true value (after any prefix of plugins returning `True`), the
execution yields a skipped TestResult without running the body; a plugin
returning a value that is neither `True` nor `False` short-circuits the rest
of the consultation, while a `False` return marks the test skipped but keeps
consulting the remaining plugins; and the result's `skipped_reason` is always
the descriptor's static `skip_reason` — the plugin-derived reason text is
computed but discarded. -/
theorem C1_plugin_skip_amended (tc : TestCase) (ps1 ps2 : List Plugin) (p : Plugin)
    (hskip : tc.skip = false)
    (h1 : ∀ q ∈ ps1, pyEqTrue (q.should_run_test_case tc) = true)
    (hp : pyEqTrue (p.should_run_test_case tc) = false) :
    runOneST (some (ps1 ++ p :: ps2)) tc = (skipResult tc, []) ∧
    (skipResult tc).skipped = true ∧
    (skipResult tc).status = "skipped" ∧
    (skipResult tc).skipped_reason = tc.skip_reason ∧
    (pyEqFalse (p.should_run_test_case tc) = false →
      consultPlugins tc (ps1 ++ p :: ps2) (tc.skip, tc.skip_reason) =
        ((true, pyUnicode (p.should_run_test_case tc)), ps1.map Plugin.name ++ [p.name])) ∧
    (pyEqFalse (p.should_run_test_case tc) = true →
      consultPlugins tc (ps1 ++ p :: ps2) (tc.skip, tc.skip_reason) =
        ((consultPlugins tc ps2 (true, "")).1,
          ps1.map Plugin.name ++ p.name :: (consultPlugins tc ps2 (true, "")).2)) := by
  have hpre := consultPlugins_true_prefix tc ps1 h1 (p :: ps2) (tc.skip, tc.skip_reason)
  have honeF : pyEqFalse (p.should_run_test_case tc) = true →
      consultPlugins tc (p :: ps2) (tc.skip, tc.skip_reason) =
        ((consultPlugins tc ps2 (true, "")).1,
          p.name :: (consultPlugins tc ps2 (true, "")).2) := by
    intro hf; simp [consultPlugins, hp, hf]
  have honeO : pyEqFalse (p.should_run_test_case tc) = false →
      consultPlugins tc (p :: ps2) (tc.skip, tc.skip_reason) =
        ((true, pyUnicode (p.should_run_test_case tc)), [p.name]) := by
    intro hf; simp [consultPlugins, hp, hf]
  have hfst : ((consultPlugins tc (ps1 ++ p :: ps2) (tc.skip, tc.skip_reason)).1).1 = true := by
    rw [hpre]
    by_cases hf : pyEqFalse (p.should_run_test_case tc) = true
    · rw [honeF hf]; exact consultPlugins_fst_true tc ps2 ""
    · rw [honeO (by simpa using hf)]
  have hnot : (!tc.skip) = true := by rw [hskip]; rfl
  have hsome : _is_skip_test_case tc (some (ps1 ++ p :: ps2)) = some (skipResult tc) := by
    simp only [_is_skip_test_case, hnot, if_true]
    simp [hfst]
  refine ⟨by simp [runOneST, hsome], rfl, ?_, rfl, ?_, ?_⟩
  · simp [skipResult, TestResult.status, TestResult.is_error, TestResult.is_failure]
  · intro hf; rw [hpre, honeO hf]
  · intro hf; rw [hpre, honeF hf]

/-- C1 (witness): the amended theorem applied to the concrete descriptor and
the string-returning plugin. -/
theorem C1_plugin_skip_witness :
    runOneST (some ([] ++ pReason :: [])) tcW1 = (skipResult tcW1, []) :=
  (C1_plugin_skip_amended tcW1 [] [] pReason rfl (by intro q hq; cases hq) rfl).1

/-- C4 (counterexample): `expect_raises(ValueError)` around a block that
raises nothing yields a NameError (the `else` branch evaluates the unbound
name `qa`), not the failure kind; and around a block raising KeyError the
KeyError propagates unchanged instead of a Failure being raised. -/
theorem C4_expect_raises_counterexample :
    expect_raises ExcType.tValueError none =
      some (PyExc.nameError "global name qa is not defined") ∧
    (PyExc.nameError "global name qa is not defined").isFailureKind = false ∧
    expect_raises ExcType.tValueError (some (PyExc.keyError "0")) =
      some (PyExc.keyError "0") ∧
    (PyExc.keyError "0").isFailureKind = false :=
  ⟨rfl, rfl, rfl, rfl⟩

/-- C4 (amended): the scoped form `expect_raises(E)` succeeds (raises
nothing) when the guarded block raises an instance of E; when the block
raises nothing it attempts `raise qa.Failure(...)` but actually raises
NameError, the name `qa` being unbound inside the module (the module's own
`Failure` class was clearly intended); and when the block raises an
exception of a different type, that exception propagates unchanged rather
than being converted to the failure kind. -/
theorem C4_expect_raises_amended (et : ExcType) (e e2 : PyExc)
    (hmatch : e.isInstance et = true) (hmiss : e2.isInstance et = false) :
    expect_raises et (some e) = none ∧
    expect_raises et none = some (PyExc.nameError "global name qa is not defined") ∧
    expect_raises et (some e2) = some e2 := by
  refine ⟨?_, rfl, ?_⟩ <;> simp [expect_raises, hmatch, hmiss]

/-- C4 (witness): the amended theorem applied to KeyError matching and
ValueError non-matching concrete exceptions. -/
theorem C4_expect_raises_witness :
    expect_raises ExcType.tKeyError (some (PyExc.keyError "0")) = none :=
  (C4_expect_raises_amended ExcType.tKeyError (PyExc.keyError "0")
    (PyExc.valueError "v") rfl rfl).1

/-- C5: a registered test case with `skip = True` yields, under the
sequential driver and under the thread-pool driver, a result with
`skipped = True`, status "skipped" and `skipped_reason` equal to the
descriptor's `skip_reason`; the execution trace is empty — no context is
created, no fixture runs and the body is never invoked. -/
theorem C5_static_skip (tc : TestCase) (plugins : Option (List Plugin)) (nw : Option Nat)
    (h : tc.skip = true) :
    runOneST plugins tc = (skipResult tc, []) ∧
    (skipResult tc).skipped = true ∧
    (skipResult tc).status = "skipped" ∧
    (skipResult tc).skipped_reason = tc.skip_reason ∧
    _run_test_cases_multithread [tc] nw plugins = MtOutcome.done [SchedEvent.yieldSkip 0] := by
  have hnot : (!tc.skip) = false := by rw [h]; rfl
  have hsome : _is_skip_test_case tc plugins = some (skipResult tc) := by
    simp [_is_skip_test_case, hnot, h]
  refine ⟨by simp [runOneST, hsome], rfl, ?_, rfl, ?_⟩
  · simp [skipResult, TestResult.status, TestResult.is_error, TestResult.is_failure]
  · simp [_run_test_cases_multithread, List.enum, List.enumFrom, mtLoop, hsome,
      MtOutcome.prepend]

/-- C5 (witness): the theorem applied to a concrete statically skipped
descriptor with no plugins. -/
theorem C5_static_skip_witness :
    runOneST none tcW5 = (skipResult tcW5, []) :=
  (C5_static_skip tcW5 none none rfl).1

/-- C10: for a plugin object not already in the global plugin list,
`register_plugin` raises AttributeError — it calls `append` on the
`_qa_globals` module object, which has none — and the global plugin list is
unchanged; indeed on no path does `register_plugin` ever modify the list, so
no plugin can be added through it. -/
theorem C10_register_plugin_broken (p : Nat) (g : QaGlobals) (h : p ∉ g.plugins) :
    register_plugin p g =
      (g, some (PyExc.attributeError "module object has no attribute append")) ∧
    (register_plugin p g).1.plugins = g.plugins ∧
    ∀ q : Nat, ∀ g0 : QaGlobals, ((register_plugin q g0).1).plugins = g0.plugins := by
  refine ⟨by simp [register_plugin, h], by simp [register_plugin, h], ?_⟩
  intro q g0
  unfold register_plugin
  split <;> rfl

/-- C10 (witness): the theorem applied to plugin id 7 and the empty global
state. -/
theorem C10_register_plugin_witness :
    register_plugin 7 {} =
      ({}, some (PyExc.attributeError "module object has no attribute append")) :=
  (C10_register_plugin_broken 7 {} (by simp)).1

/-- C2: a non-skipped execution enters the requirement scopes in combined
order — each plugin's extra requirements in plugin order, then the test
case's own `requires` in declaration order — before the body runs, and
releases all entered scopes in exact reverse order of entry on every exit
path: the trace equation below holds for every test case, in particular for
every body outcome `tc.callable`, including a raising body. -/
theorem C2_requirement_scopes (tc : TestCase) (ps : List Plugin) :
    (_run_test_case tc (some ps)).2 =
      (combinedRequirements tc ps).map Event.setup
        ++ (ps.map fun p => Event.willRun p.name)
        ++ [Event.body tc.name]
        ++ ((combinedRequirements tc ps).reverse.map Event.teardown)
        ++ (ps.map fun p => Event.didRun p.name) := by
  simp [_run_test_case, withNested_spec, List.append_assoc]

/-- A body exception is caught by `_run_test_case`: a `Failure` lands in the
failure payload, any other exception in the error payload, and the derived
status is "failed" resp. "crashed". -/
theorem run_test_case_classifies (tc : TestCase) (ps : List Plugin) (e : PyExc)
    (hbody : tc.callable = some e) :
    (_run_test_case tc (some ps)).1.status =
      (if e.isFailureKind then "failed" else "crashed") ∧
    (_run_test_case tc (some ps)).1.failure =
      (if e.isFailureKind then some e else none) ∧
    (_run_test_case tc (some ps)).1.error =
      (if e.isFailureKind then none else some e) := by
  cases e <;>
    simp [_run_test_case, withNested_spec, hbody, TestResult.status,
      TestResult.is_error, TestResult.is_failure, PyExc.isFailureKind]

/-- C3: under the sequential driver, an exception raised by one test's body
— the `Failure` kind or any other exception — is captured into that test's
TestResult as the failure resp. error payload and does not propagate out of
the engine (the embedded driver is a total function into results); every
test case in the sequence, the raising one included, produces its own
result: the result list has the same length as the input sequence. -/
theorem C3_body_exception_contained (tcs : List TestCase) (ps : List Plugin) (i : Nat)
    (e : PyExc) (hi : i < tcs.length)
    (hskip : _is_skip_test_case (tcs.getD i {}) (some ps) = none)
    (hbody : (tcs.getD i {}).callable = some e) :
    (_run_test_cases_singlethread tcs (some ps)).length = tcs.length ∧
    ((_run_test_cases_singlethread tcs (some ps)).getD i ({}, [])).1.status =
      (if e.isFailureKind then "failed" else "crashed") ∧
    ((_run_test_cases_singlethread tcs (some ps)).getD i ({}, [])).1.failure =
      (if e.isFailureKind then some e else none) ∧
    ((_run_test_cases_singlethread tcs (some ps)).getD i ({}, [])).1.error =
      (if e.isFailureKind then none else some e) := by
  have hlen : (_run_test_cases_singlethread tcs (some ps)).length = tcs.length := by
    simp [_run_test_cases_singlethread]
  have hi2 : i < (_run_test_cases_singlethread tcs (some ps)).length := by
    rw [hlen]; exact hi
  have hget : (_run_test_cases_singlethread tcs (some ps)).getD i ({}, []) =
      runOneST (some ps) (tcs.getD i {}) := by
    rw [List.getD_eq_getElem _ _ hi2, List.getD_eq_getElem _ _ hi]
    simp [_run_test_cases_singlethread]
  have hrun : runOneST (some ps) (tcs.getD i {}) = _run_test_case (tcs.getD i {}) (some ps) := by
    unfold runOneST
    rw [hskip]
  rw [hget, hrun]
  have hc := run_test_case_classifies (tcs.getD i {}) ps e hbody
  exact ⟨hlen, hc.1, hc.2.1, hc.2.2⟩

/-- C3 (witness): the theorem applied to a one-element sequence whose body
raises `Failure`. -/
theorem C3_body_exception_witness :
    ((_run_test_cases_singlethread [tcW3] (some [])).getD 0 ({}, [])).1.status =
      (if (PyExc.failure "boom").isFailureKind then "failed" else "crashed") :=
  (C3_body_exception_contained [tcW3] [] 0 (PyExc.failure "boom") (by decide) rfl rfl).2.1

/-- C9: `run_test_cases` called with its default plugin argument
(`plugins = None`) makes every non-skipped test yield a crashed result with
the TypeError from iterating `None` as its error payload, and the body is
never invoked — the execution trace is empty, since `_run_test_case` hits
the unguarded `for plugin in plugins` before any requirement or the body. -/
theorem C9_default_plugins_crash (tcs : List TestCase)
    (h : ∀ tc ∈ tcs, tc.skip = false) (i : Nat) (hi : i < tcs.length) :
    (run_test_cases tcs).length = tcs.length ∧
    ((run_test_cases tcs).getD i ({}, [])).1.status = "crashed" ∧
    ((run_test_cases tcs).getD i ({}, [])).1.error =
      some (PyExc.typeError "NoneType object is not iterable") ∧
    ((run_test_cases tcs).getD i ({}, [])).2 = [] := by
  have hlen : (run_test_cases tcs).length = tcs.length := by
    simp [run_test_cases, _run_test_cases_singlethread]
  have hi2 : i < (run_test_cases tcs).length := by rw [hlen]; exact hi
  have hget : (run_test_cases tcs).getD i ({}, []) = runOneST none (tcs.getD i {}) := by
    rw [List.getD_eq_getElem _ _ hi2, List.getD_eq_getElem _ _ hi]
    simp [run_test_cases, _run_test_cases_singlethread]
  have hsk : (tcs.getD i {}).skip = false := by
    apply h
    rw [List.getD_eq_getElem _ _ hi]
    exact List.getElem_mem hi
  have hnone : _is_skip_test_case (tcs.getD i {}) none = none := by
    unfold _is_skip_test_case
    rw [hsk]
    rfl
  have hrun : runOneST none (tcs.getD i {}) = _run_test_case (tcs.getD i {}) none := by
    unfold runOneST
    rw [hnone]
  rw [hget, hrun]
  refine ⟨hlen, ?_, ?_, ?_⟩ <;>
    simp [_run_test_case, TestResult.status, TestResult.is_error]

/-- C9 (witness): the theorem applied to a one-element sequence of a plain
non-skipped descriptor. -/
theorem C9_default_plugins_witness :
    ((run_test_cases [tcW9]).getD 0 ({}, [])).1.status = "crashed" :=
  (C9_default_plugins_crash [tcW9] (by decide) 0 (by decide)).2.1

/-- C8: evaluating the embedded thread-pool driver with worker count 2 on
three non-skipped tests.  The completion-drain `while` loop of the source is
nested inside the submission `for` loop, so after each admission the driver
waits until zero executions remain in flight before admitting the next test:
the trace is strictly start/complete/yield per test and the maximum in-flight
count is 1, not the configured bound 2 — the engine never keeps N executions
in flight and admissions never interleave with outstanding completions,
contradicting the claim (the structurally correct multiprocess driver and the
unreachable `yield test_result` of an undefined name at line 447 show the
intended bounded-pool discipline was mis-implemented). -/
theorem C8_thread_pool_sequential_eval :
    _run_test_cases_multithread [tcMt0, tcMt1, tcMt2] (some 2) (some []) =
      MtOutcome.done
        [SchedEvent.start 0, SchedEvent.complete, SchedEvent.yieldResult,
         SchedEvent.start 1, SchedEvent.complete, SchedEvent.yieldResult,
         SchedEvent.start 2, SchedEvent.complete, SchedEvent.yieldResult] ∧
    maxInflight
        [SchedEvent.start 0, SchedEvent.complete, SchedEvent.yieldResult,
         SchedEvent.start 1, SchedEvent.complete, SchedEvent.yieldResult,
         SchedEvent.start 2, SchedEvent.complete, SchedEvent.yieldResult] = 1 := by
  exact ⟨rfl, rfl⟩
